import Mathlib

/-!
Verification of the conditional-visibility logic engine of the Builder-Form
repository (client/src/logicengine.ts) and of the Form Renderer submission
handler (FormRenderer.tsx / App.tsx `handleSubmit`).

The embedding follows the TypeScript source:
  * an answer value is either a single string or a list of strings
    (multi-select), mirroring the Answer Map data model;
  * a JS object lookup `answersSoFar[k]` can yield `undefined` (key absent),
    `null` (key present, null value) or a value, modelled as
    `Option (Option Value)` via an association list;
  * JS `String(x)` on these values is the identity on strings and the
    comma-join on arrays (`Array.prototype.toString`), modelled by
    `Value.toJsString`;
  * the `operator` and `logic` fields are runtime strings (the TypeScript
    union types are erased and the data arrives from JSON), so they are
    modelled as `String`.
-/

namespace BuilderForm

/-- An answer value: a single string, or a list of strings (multi-select). -/
inductive Value where
  | str : String → Value
  | arr : List String → Value
deriving DecidableEq, Repr

/-- JS `String(x)` for the values above: identity on strings, comma-join on
arrays (what `Array.prototype.toString` produces). -/
def Value.toJsString : Value → String
  | Value.str s => s
  | Value.arr xs => String.intercalate "," xs

/-- The Answer Map: association list from field keys to values; an entry
whose payload is `none` models a key present with a JS `null` value. -/
abbrev AnswerMap := List (String × Option Value)

/-- JS property access `answersSoFar[k]`: `none` models `undefined` (key
absent), `some none` models a stored `null`, `some (some v)` a stored value. -/
def lookupAnswer (answersSoFar : AnswerMap) (k : String) : Option (Option Value) :=
  List.lookup k answersSoFar

/-- One atomic condition, from logicengine.ts: `questionKey` selects the
dependency answer, `operator` is a runtime string, `value` the comparison
operand (a string in every authored rule; see App.tsx `logicRule`). -/
structure Condition where
  questionKey : String
  operator : String
  value : String
deriving DecidableEq, Repr

/-- A rule set: combinator string plus the ordered condition list. -/
structure ConditionalRules where
  logic : String
  conditions : List Condition
deriving DecidableEq, Repr

/-- JS `haystack.includes(needle)` on strings: substring containment,
computed over the character lists. -/
def strContains (haystack needle : String) : Bool :=
  haystack.data.tails.any (fun t => needle.data.isPrefixOf t)

/-- Body of the `rules.conditions.map((condition) => ...)` closure in
`shouldShowQuestion` (logicengine.ts lines 26-49): evaluate one condition
against the answers collected so far. -/
def evalCondition (answersSoFar : AnswerMap) (condition : Condition) : Bool :=
  match lookupAnswer answersSoFar condition.questionKey with
  | none => false
  | some none => false
  | some (some userAnswer) =>
    if condition.operator = "equals" then
      userAnswer.toJsString == condition.value
    else if condition.operator = "notEquals" then
      userAnswer.toJsString != condition.value
    else if condition.operator = "contains" then
      match userAnswer with
      | Value.arr xs => xs.contains condition.value
      | _ => strContains userAnswer.toJsString condition.value
    else
      false

/-- `shouldShowQuestion(rules, answersSoFar)` from logicengine.ts: `none`
models a `null`/`undefined` rules argument; an empty condition list returns
`true`; otherwise the per-condition results are combined with `every` under
`logic === "AND"` and with `some` otherwise. -/
def shouldShowQuestion (rules : Option ConditionalRules) (answersSoFar : AnswerMap) : Bool :=
  match rules with
  | none => true
  | some rules =>
    if rules.conditions.length = 0 then
      true
    else
      let results := rules.conditions.map (fun condition => evalCondition answersSoFar condition)
      if rules.logic = "AND" then
        results.all (fun res => res == true)
      else
        results.any (fun res => res == true)

/-- The operator dispatch of the condition closure, on an already-answered
(non-null) stored value: the `switch (condition.operator)` of
logicengine.ts. -/
def evalOperator (a : Value) (op v : String) : Bool :=
  if op = "equals" then a.toJsString == v
  else if op = "notEquals" then a.toJsString != v
  else if op = "contains" then
    match a with
    | Value.arr xs => xs.contains v
    | _ => strContains a.toJsString v
  else false

/-! ### The Form Renderer submission handler (FormRenderer.tsx) -/

/-- The `logic` sub-object of a field, holding its optional rules
(`field.logic.rules`). -/
structure FieldLogic where
  rules : Option ConditionalRules
deriving DecidableEq

/-- One form field as consumed by the renderer: stable id, display label,
external type name, choice options, required flag and optional logic. -/
structure Field where
  fieldId : String
  label : String
  type : String
  options : List String
  required : Bool
  logic : Option FieldLogic
deriving DecidableEq

/-- A stored form: title and ordered field list. -/
structure Form where
  title : String
  fields : List Field
deriving DecidableEq

/-- The JS optional chain `field.logic?.rules`: `undefined` when `logic` is
absent, otherwise the (possibly absent) `rules`. -/
def Field.logicRules (field : Field) : Option ConditionalRules :=
  match field.logic with
  | none => none
  | some l => l.rules

/-- JS truthiness of `answers[field.fieldId]` as used by `handleSubmit`:
`undefined`, `null` and the empty string are falsy; every non-empty string
and every array value (even an empty one) is truthy. -/
def answerTruthy (answers : AnswerMap) (k : String) : Bool :=
  match lookupAnswer answers k with
  | none => false
  | some none => false
  | some (some (Value.str s)) => s != ""
  | some (some (Value.arr _)) => true

/-- The validation filter of `handleSubmit`: fields that are visible per the
logic rules, required, and whose current answer is falsy. -/
def missingFields (form : Form) (answers : AnswerMap) : List Field :=
  form.fields.filter (fun field =>
    shouldShowQuestion field.logicRules answers
      && field.required && !answerTruthy answers field.fieldId)

/-- Outcome of `handleSubmit`: either the blocking alert message, or the
answers posted to the server. -/
inductive SubmitResult where
  | blocked : String → SubmitResult
  | submitted : AnswerMap → SubmitResult
deriving DecidableEq

/-- `handleSubmit` of FormRenderer.tsx: if any visible required field is
unanswered, alert with the joined labels and return without sending;
otherwise post the answer map. -/
def handleSubmit (form : Form) (answers : AnswerMap) : SubmitResult :=
  if (missingFields form answers).length > 0 then
    SubmitResult.blocked ("Please fill in the following required fields: "
      ++ String.intercalate ", " ((missingFields form answers).map (fun f => f.label)))
  else
    SubmitResult.submitted answers

/-! ### Helper lemmas about the evaluator -/

theorem all_map_beq_true {α : Type} (l : List α) (f : α → Bool) :
    (l.map f).all (fun res => res == true) = l.all f := by
  induction l with
  | nil => rfl
  | cons c l ih =>
    rw [List.map_cons, List.all_cons, ih, List.all_cons]
    simp

theorem any_map_beq_true {α : Type} (l : List α) (f : α → Bool) :
    (l.map f).any (fun res => res == true) = l.any f := by
  induction l with
  | nil => rfl
  | cons c l ih =>
    rw [List.map_cons, List.any_cons, ih, List.any_cons]
    simp

theorem shouldShowQuestion_of_ne_nil (r : ConditionalRules) (answers : AnswerMap)
    (hne : r.conditions ≠ []) :
    shouldShowQuestion (some r) answers =
      if r.logic = "AND" then r.conditions.all (evalCondition answers)
      else r.conditions.any (evalCondition answers) := by
  have hlen : ¬ r.conditions.length = 0 := by
    simpa [List.length_eq_zero] using hne
  simp only [shouldShowQuestion]
  rw [if_neg hlen]
  by_cases hl : r.logic = "AND"
  · rw [if_pos hl, if_pos hl, all_map_beq_true]
  · rw [if_neg hl, if_neg hl, any_map_beq_true]

theorem shouldShowQuestion_and_iff (r : ConditionalRules) (answers : AnswerMap)
    (hne : r.conditions ≠ []) (hl : r.logic = "AND") :
    shouldShowQuestion (some r) answers = true ↔
      ∀ c ∈ r.conditions, evalCondition answers c = true := by
  rw [shouldShowQuestion_of_ne_nil r answers hne, if_pos hl, List.all_eq_true]

theorem shouldShowQuestion_or_iff (r : ConditionalRules) (answers : AnswerMap)
    (hne : r.conditions ≠ []) (hl : r.logic ≠ "AND") :
    shouldShowQuestion (some r) answers = true ↔
      ∃ c ∈ r.conditions, evalCondition answers c = true := by
  rw [shouldShowQuestion_of_ne_nil r answers hne, if_neg hl, List.any_eq_true]

theorem evalCondition_of_answered (answers : AnswerMap) (c : Condition) (a : Value)
    (h : lookupAnswer answers c.questionKey = some (some a)) :
    evalCondition answers c = evalOperator a c.operator c.value := by
  unfold evalCondition evalOperator
  simp only [h]

theorem strContains_eq_true_iff (haystack needle : String) :
    strContains haystack needle = true ↔
      ∃ p q : String, haystack = p ++ needle ++ q := by
  unfold strContains
  rw [List.any_eq_true]
  constructor
  · rintro ⟨t, ht, hpre⟩
    rw [List.mem_tails] at ht
    rw [ List.isPrefixOf_iff_prefix] at hpre
    obtain ⟨q, hq⟩ := hpre
    obtain ⟨p, hp⟩ := ht
    refine ⟨⟨p⟩, ⟨q⟩, ?_⟩
    apply String.ext
    rw [show ((⟨p⟩ ++ needle ++ ⟨q⟩ : String)).data = p ++ needle.data ++ q from rfl]
    rw [← hp, ← hq, List.append_assoc]
  · rintro ⟨p, q, hpq⟩
    refine ⟨needle.data ++ q.data, ?_, ?_⟩
    · rw [List.mem_tails]
      exact ⟨p.data, by rw [hpq, ← List.append_assoc]; rfl⟩
    · rw [ List.isPrefixOf_iff_prefix]
      exact ⟨q.data, rfl⟩

theorem evalCondition_of_unanswered (answers : AnswerMap) (c : Condition)
    (h : lookupAnswer answers c.questionKey = none ∨
         lookupAnswer answers c.questionKey = some none) :
    evalCondition answers c = false := by
  unfold evalCondition
  rcases h with h | h <;> rw [h]

/-! ### Claim theorems -/

/-- C2: a field with no rules, or with an empty condition sequence, is always
visible: `shouldShowQuestion` returns `true` on an absent rules object and on
a rules object with an empty condition list, for every answer map and every
logic value. -/
theorem no_rules_always_visible (answers : AnswerMap) (logic : String) :
    shouldShowQuestion none answers = true
    ∧ shouldShowQuestion (some ⟨logic, []⟩) answers = true := by
  exact ⟨rfl, rfl⟩

/-- C1: a condition whose `questionKey` is absent from the answer map or maps
to null evaluates to `false` regardless of its operator; hence an AND rule set
containing such a condition returns `false`, and an OR rule set containing it
returns `true` only if some other condition evaluates true. -/
theorem unanswered_condition_never_satisfied (answers : AnswerMap)
    (c : Condition) (r : ConditionalRules) (hmem : c ∈ r.conditions)
    (h : lookupAnswer answers c.questionKey = none ∨
         lookupAnswer answers c.questionKey = some none) :
    evalCondition answers c = false
    ∧ (r.logic = "AND" → shouldShowQuestion (some r) answers = false)
    ∧ (r.logic = "OR" → shouldShowQuestion (some r) answers = true →
        ∃ d ∈ r.conditions, d ≠ c ∧ evalCondition answers d = true) := by
  have hne : r.conditions ≠ [] := List.ne_nil_of_mem hmem
  have hc : evalCondition answers c = false := evalCondition_of_unanswered answers c h
  refine ⟨hc, ?_, ?_⟩
  · intro hl
    by_contra hshow
    rw [Bool.not_eq_false] at hshow
    have := (shouldShowQuestion_and_iff r answers hne hl).mp hshow c hmem
    rw [hc] at this
    exact Bool.false_ne_true this
  · intro hl hshow
    have hl' : r.logic ≠ "AND" := by rw [hl]; decide
    obtain ⟨d, hd, hdt⟩ := (shouldShowQuestion_or_iff r answers hne hl').mp hshow
    refine ⟨d, hd, ?_, hdt⟩
    intro hdc
    rw [hdc, hc] at hdt
    exact Bool.false_ne_true hdt

/-- C1 witness: the unanswered `role` condition of the OR example in the spec,
inside that two-condition OR rule, over the answer map where only `dept` is
answered. -/
theorem unanswered_condition_never_satisfied_witness :
    (lookupAnswer [("dept", some (Value.str "Sales"))] "role" = none ∨
      lookupAnswer [("dept", some (Value.str "Sales"))] "role" = some none)
    ∧ (evalCondition [("dept", some (Value.str "Sales"))] ⟨"role", "equals", "Engineer"⟩ = false
    ∧ ("OR" = "AND" → shouldShowQuestion
        (some ⟨"OR", [⟨"role", "equals", "Engineer"⟩, ⟨"dept", "equals", "Sales"⟩]⟩)
        [("dept", some (Value.str "Sales"))] = false)
    ∧ ("OR" = "OR" → shouldShowQuestion
        (some ⟨"OR", [⟨"role", "equals", "Engineer"⟩, ⟨"dept", "equals", "Sales"⟩]⟩)
        [("dept", some (Value.str "Sales"))] = true →
        ∃ d ∈ [Condition.mk "role" "equals" "Engineer", Condition.mk "dept" "equals" "Sales"],
          d ≠ ⟨"role", "equals", "Engineer"⟩
          ∧ evalCondition [("dept", some (Value.str "Sales"))] d = true)) :=
  ⟨Or.inl (by decide),
    unanswered_condition_never_satisfied [("dept", some (Value.str "Sales"))]
      ⟨"role", "equals", "Engineer"⟩
      ⟨"OR", [⟨"role", "equals", "Engineer"⟩, ⟨"dept", "equals", "Sales"⟩]⟩
      (by decide) (Or.inl (by decide))⟩

/-- C4: on a non-empty condition sequence, logic AND yields true iff every
condition evaluates true, and logic OR yields true iff at least one condition
evaluates true. -/
theorem logic_and_or_semantics (r : ConditionalRules) (answers : AnswerMap)
    (hne : r.conditions ≠ []) :
    (r.logic = "AND" →
      (shouldShowQuestion (some r) answers = true ↔
        ∀ c ∈ r.conditions, evalCondition answers c = true))
    ∧ (r.logic = "OR" →
      (shouldShowQuestion (some r) answers = true ↔
        ∃ c ∈ r.conditions, evalCondition answers c = true)) := by
  constructor
  · intro hl
    exact shouldShowQuestion_and_iff r answers hne hl
  · intro hl
    have hl' : r.logic ≠ "AND" := by rw [hl]; decide
    exact shouldShowQuestion_or_iff r answers hne hl'

/-- C4 witness: the OR example of the spec — the second condition (`dept` equals
Sales) satisfies the OR rule even though the dependency of the first condition
(`role`) is unanswered. -/
theorem logic_and_or_semantics_witness :
    (([⟨"role", "equals", "Engineer"⟩, ⟨"dept", "equals", "Sales"⟩] : List Condition) ≠ [])
    ∧ (("OR" = "AND" →
        (shouldShowQuestion
          (some ⟨"OR", [⟨"role", "equals", "Engineer"⟩, ⟨"dept", "equals", "Sales"⟩]⟩)
          [("dept", some (Value.str "Sales"))] = true ↔
          ∀ c ∈ [Condition.mk "role" "equals" "Engineer", Condition.mk "dept" "equals" "Sales"],
            evalCondition [("dept", some (Value.str "Sales"))] c = true))
      ∧ ("OR" = "OR" →
        (shouldShowQuestion
          (some ⟨"OR", [⟨"role", "equals", "Engineer"⟩, ⟨"dept", "equals", "Sales"⟩]⟩)
          [("dept", some (Value.str "Sales"))] = true ↔
          ∃ c ∈ [Condition.mk "role" "equals" "Engineer", Condition.mk "dept" "equals" "Sales"],
            evalCondition [("dept", some (Value.str "Sales"))] c = true)))
    ∧ shouldShowQuestion
        (some ⟨"OR", [⟨"role", "equals", "Engineer"⟩, ⟨"dept", "equals", "Sales"⟩]⟩)
        [("dept", some (Value.str "Sales"))] = true :=
  ⟨by decide,
    logic_and_or_semantics
      ⟨"OR", [⟨"role", "equals", "Engineer"⟩, ⟨"dept", "equals", "Sales"⟩]⟩
      [("dept", some (Value.str "Sales"))] (by decide),
    by decide⟩

/-- C5: on an answered (non-null) dependency, `equals` tests exact equality of
the string-normalized stored answer against the value of the condition, and
`notEquals` is its boolean negation, so the two are exact complements. -/
theorem equals_notEquals_complement (answers : AnswerMap) (k v : String) (a : Value)
    (h : lookupAnswer answers k = some (some a)) :
    (evalCondition answers ⟨k, "equals", v⟩ = true ↔ a.toJsString = v)
    ∧ evalCondition answers ⟨k, "notEquals", v⟩
        = !evalCondition answers ⟨k, "equals", v⟩ := by
  rw [evalCondition_of_answered answers ⟨k, "equals", v⟩ a h,
      evalCondition_of_answered answers ⟨k, "notEquals", v⟩ a h]
  constructor
  · simp [evalOperator, beq_iff_eq]
  · simp [evalOperator, bne]

/-- C5 witness: the `role` dependency answered with Engineer, compared against
Engineer. -/
theorem equals_notEquals_complement_witness :
    (lookupAnswer [("role", some (Value.str "Engineer"))] "role"
        = some (some (Value.str "Engineer")))
    ∧ ((evalCondition [("role", some (Value.str "Engineer"))]
          ⟨"role", "equals", "Engineer"⟩ = true
        ↔ Value.toJsString (Value.str "Engineer") = "Engineer")
      ∧ evalCondition [("role", some (Value.str "Engineer"))]
          ⟨"role", "notEquals", "Engineer"⟩
        = !evalCondition [("role", some (Value.str "Engineer"))]
            ⟨"role", "equals", "Engineer"⟩) :=
  ⟨by decide,
    equals_notEquals_complement [("role", some (Value.str "Engineer"))]
      "role" "Engineer" (Value.str "Engineer") (by decide)⟩

/-- C6: on an answered dependency, `contains` tests exact element membership
when the stored answer is a list (multi-select), and substring containment of
the condition value when the stored answer is a scalar string. -/
theorem contains_membership_or_substring (answers : AnswerMap) (k v : String)
    (a : Value) (h : lookupAnswer answers k = some (some a)) :
    evalCondition answers ⟨k, "contains", v⟩ = true ↔
      (match a with
       | Value.arr xs => v ∈ xs
       | Value.str s => ∃ p q : String, s = p ++ v ++ q) := by
  rw [evalCondition_of_answered answers ⟨k, "contains", v⟩ a h]
  cases a with
  | str s =>
    simp [evalOperator, Value.toJsString, strContains_eq_true_iff s v]
  | arr xs =>
    simp [evalOperator]

/-- C6 witness: a multi-select answer, tested for an exact element. -/
theorem contains_membership_or_substring_witness :
    (lookupAnswer [("skills", some (Value.arr ["a", "b"]))] "skills"
        = some (some (Value.arr ["a", "b"])))
    ∧ (evalCondition [("skills", some (Value.arr ["a", "b"]))]
        ⟨"skills", "contains", "a"⟩ = true ↔ "a" ∈ ["a", "b"]) :=
  ⟨by decide,
    contains_membership_or_substring [("skills", some (Value.arr ["a", "b"]))]
      "skills" "a" (Value.arr ["a", "b"]) (by decide)⟩

/-- C7: a condition with an operator outside equals/notEquals/contains whose
dependency is answered evaluates to false (default-deny); the evaluator is a
total function, so no error is raised. -/
theorem unrecognized_operator_false (answers : AnswerMap) (c : Condition)
    (a : Value) (h : lookupAnswer answers c.questionKey = some (some a))
    (h1 : c.operator ≠ "equals") (h2 : c.operator ≠ "notEquals")
    (h3 : c.operator ≠ "contains") :
    evalCondition answers c = false := by
  rw [evalCondition_of_answered answers c a h]
  unfold evalOperator
  rw [if_neg h1, if_neg h2, if_neg h3]

/-- C7 witness: the unsupported operator greaterThan on an answered
dependency. -/
theorem unrecognized_operator_false_witness :
    (lookupAnswer [("age", some (Value.str "30"))] "age"
        = some (some (Value.str "30")))
    ∧ ("greaterThan" ≠ "equals")
    ∧ ("greaterThan" ≠ "notEquals")
    ∧ ("greaterThan" ≠ "contains")
    ∧ evalCondition [("age", some (Value.str "30"))]
        ⟨"age", "greaterThan", "25"⟩ = false :=
  ⟨by decide, by decide, by decide, by decide,
    unrecognized_operator_false [("age", some (Value.str "30"))]
      ⟨"age", "greaterThan", "25"⟩ (Value.str "30")
      (by decide) (by decide) (by decide) (by decide)⟩

/-- C9: with a non-empty condition list, any `logic` value other than the
exact string AND — including malformed values — is combined as a disjunction:
the result is true iff at least one condition evaluates true. In particular a
malformed logic value never makes the field unconditionally visible, and the
evaluator, a total function, raises no error. -/
theorem malformed_logic_defaults_to_or (r : ConditionalRules)
    (answers : AnswerMap) (hne : r.conditions ≠ []) (hl : r.logic ≠ "AND") :
    shouldShowQuestion (some r) answers = true ↔
      ∃ c ∈ r.conditions, evalCondition answers c = true :=
  shouldShowQuestion_or_iff r answers hne hl

/-- C9 witness: the malformed logic value XOR over a single satisfied
condition behaves as OR. -/
theorem malformed_logic_defaults_to_or_witness :
    (([⟨"k", "equals", "v"⟩] : List Condition) ≠ [])
    ∧ ("XOR" ≠ "AND")
    ∧ (shouldShowQuestion (some ⟨"XOR", [⟨"k", "equals", "v"⟩]⟩)
          [("k", some (Value.str "v"))] = true ↔
        ∃ c ∈ [Condition.mk "k" "equals" "v"],
          evalCondition [("k", some (Value.str "v"))] c = true) :=
  ⟨by decide, by decide,
    malformed_logic_defaults_to_or ⟨"XOR", [⟨"k", "equals", "v"⟩]⟩
      [("k", some (Value.str "v"))] (by decide) (by decide)⟩

/-- C3 counterexample: a key present with the empty string does NOT fail
every condition — `notEquals` against a non-empty comparison value passes,
and an AND rule made of that single condition shows the field. -/
theorem empty_answer_counts_as_answered_cex :
    evalCondition [("k", some (Value.str ""))] ⟨"k", "notEquals", "x"⟩ = true
    ∧ shouldShowQuestion (some ⟨"AND", [⟨"k", "notEquals", "x"⟩]⟩)
        [("k", some (Value.str ""))] = true := by
  decide

/-- C3 amended: only an absent key or a null value count as unanswered; a key
present with the empty string is treated as an answered scalar, evaluated by
the operator as the empty string — `notEquals` passes iff the comparison
value is non-empty, while `equals` and `contains` pass iff it is empty. -/
theorem empty_string_treated_as_answered (answers : AnswerMap) (k v : String)
    (h : lookupAnswer answers k = some (some (Value.str ""))) :
    (evalCondition answers ⟨k, "notEquals", v⟩ = true ↔ v ≠ "")
    ∧ (evalCondition answers ⟨k, "equals", v⟩ = true ↔ v = "")
    ∧ (evalCondition answers ⟨k, "contains", v⟩ = true ↔ v = "") := by
  refine ⟨?_, ?_, ?_⟩
  · rw [evalCondition_of_answered answers ⟨k, "notEquals", v⟩ (Value.str "") h]
    show evalOperator (Value.str "") "notEquals" v = true ↔ v ≠ ""
    unfold evalOperator
    rw [if_neg (by decide), if_pos rfl]
    show (("" : String) != v) = true ↔ v ≠ ""
    rw [bne_iff_ne]
    exact ne_comm
  · rw [evalCondition_of_answered answers ⟨k, "equals", v⟩ (Value.str "") h]
    show evalOperator (Value.str "") "equals" v = true ↔ v = ""
    unfold evalOperator
    rw [if_pos rfl]
    show (("" : String) == v) = true ↔ v = ""
    rw [beq_iff_eq]
    exact eq_comm
  · rw [evalCondition_of_answered answers ⟨k, "contains", v⟩ (Value.str "") h]
    show evalOperator (Value.str "") "contains" v = true ↔ v = ""
    unfold evalOperator
    rw [if_neg (by decide), if_neg (by decide), if_pos rfl]
    show strContains "" v = true ↔ v = ""
    rw [strContains_eq_true_iff]
    constructor
    · rintro ⟨p, q, hpq⟩
      have hd := congrArg String.data hpq
      rw [show ((p ++ v ++ q).data) = p.data ++ v.data ++ q.data from rfl] at hd
      obtain ⟨h1, h2⟩ := List.append_eq_nil.mp hd.symm
      obtain ⟨h3, h4⟩ := List.append_eq_nil.mp h1
      exact String.ext h4
    · rintro rfl
      exact ⟨"", "", rfl⟩

/-- C3 amended witness: the empty-string answer against the non-empty
comparison value x. -/
theorem empty_string_treated_as_answered_witness :
    (lookupAnswer [("k", some (Value.str ""))] "k" = some (some (Value.str "")))
    ∧ ((evalCondition [("k", some (Value.str ""))] ⟨"k", "notEquals", "x"⟩ = true
          ↔ ("x" : String) ≠ "")
      ∧ (evalCondition [("k", some (Value.str ""))] ⟨"k", "equals", "x"⟩ = true
          ↔ ("x" : String) = "")
      ∧ (evalCondition [("k", some (Value.str ""))] ⟨"k", "contains", "x"⟩ = true
          ↔ ("x" : String) = "")) :=
  ⟨by decide,
    empty_string_treated_as_answered [("k", some (Value.str ""))] "k" "x" (by decide)⟩

/-- C10: `equals` and `notEquals` on a multi-select (list) answer compare the
comma-joined string form of the list against the condition value, and
`notEquals` stays the exact complement of `equals`. -/
theorem equals_on_multiselect (answers : AnswerMap) (k v : String)
    (xs : List String) (h : lookupAnswer answers k = some (some (Value.arr xs))) :
    (evalCondition answers ⟨k, "equals", v⟩ = true ↔ String.intercalate "," xs = v)
    ∧ evalCondition answers ⟨k, "notEquals", v⟩
        = !evalCondition answers ⟨k, "equals", v⟩ := by
  rw [evalCondition_of_answered answers ⟨k, "equals", v⟩ (Value.arr xs) h,
      evalCondition_of_answered answers ⟨k, "notEquals", v⟩ (Value.arr xs) h]
  constructor
  · simp [evalOperator, Value.toJsString, beq_iff_eq]
  · simp [evalOperator, bne]

/-- C10 witness: the list answer a, b compared against the joined form a,b
(true) and against the single element a (false). -/
theorem equals_on_multiselect_witness :
    (lookupAnswer [("k", some (Value.arr ["a", "b"]))] "k"
        = some (some (Value.arr ["a", "b"])))
    ∧ ((evalCondition [("k", some (Value.arr ["a", "b"]))]
          ⟨"k", "equals", "a,b"⟩ = true
        ↔ String.intercalate "," ["a", "b"] = "a,b")
      ∧ evalCondition [("k", some (Value.arr ["a", "b"]))]
          ⟨"k", "notEquals", "a,b"⟩
        = !evalCondition [("k", some (Value.arr ["a", "b"]))]
            ⟨"k", "equals", "a,b"⟩)
    ∧ evalCondition [("k", some (Value.arr ["a", "b"]))] ⟨"k", "equals", "a"⟩
        = false :=
  ⟨by decide,
    equals_on_multiselect [("k", some (Value.arr ["a", "b"]))] "k" "a,b"
      ["a", "b"] (by decide),
    by decide⟩

/-- C8: `handleSubmit` withholds the answers (does not submit) iff some field
is visible under the current answers, required, and unanswered (falsy); when
it blocks, the alert message lists exactly the labels of those fields, so a
required field hidden by its rules never blocks submission. -/
theorem submit_blocked_iff_missing_visible_required (form : Form)
    (answers : AnswerMap) :
    (handleSubmit form answers ≠ SubmitResult.submitted answers ↔
      ∃ f ∈ form.fields, shouldShowQuestion f.logicRules answers = true
        ∧ f.required = true ∧ answerTruthy answers f.fieldId = false)
    ∧ (handleSubmit form answers ≠ SubmitResult.submitted answers →
      handleSubmit form answers = SubmitResult.blocked
        ("Please fill in the following required fields: "
          ++ String.intercalate ", "
            ((form.fields.filter (fun f =>
                shouldShowQuestion f.logicRules answers
                  && f.required && !answerTruthy answers f.fieldId)).map
              (fun f => f.label)))) := by
  constructor
  · constructor
    · intro hne
      by_cases hm : (missingFields form answers).length > 0
      · have hnil : missingFields form answers ≠ [] := by
          intro h0
          rw [h0] at hm
          exact absurd hm (by decide)
        obtain ⟨f, hf⟩ := List.exists_mem_of_ne_nil (missingFields form answers) hnil
        obtain ⟨hmem, hpred⟩ := List.mem_filter.mp hf
        rw [Bool.and_eq_true, Bool.and_eq_true, Bool.not_eq_true'] at hpred
        obtain ⟨⟨hs, hr⟩, ht⟩ := hpred
        exact ⟨f, hmem, hs, hr, ht⟩
      · exfalso
        apply hne
        unfold handleSubmit
        rw [if_neg hm]
    · rintro ⟨f, hmem, hs, hr, ht⟩
      have hf : f ∈ missingFields form answers := by
        apply List.mem_filter.mpr
        refine ⟨hmem, ?_⟩
        rw [hs, hr, ht]
        rfl
      have hm : (missingFields form answers).length > 0 :=
        List.length_pos.mpr (List.ne_nil_of_mem hf)
      unfold handleSubmit
      rw [if_pos hm]
      exact fun hcontra => SubmitResult.noConfusion hcontra
  · intro hne
    by_cases hm : (missingFields form answers).length > 0
    · unfold handleSubmit
      rw [if_pos hm]
      rfl
    · exfalso
      apply hne
      unfold handleSubmit
      rw [if_neg hm]

/-- C8 witness: a form with a visible required unanswered Name field and a
hidden required Email field; only Name blocks, and the alert names it. -/
theorem submit_blocked_iff_missing_visible_required_witness :
    (handleSubmit
        ⟨"Survey",
          [⟨"name", "Name", "singleLineText", [], true, none⟩,
           ⟨"email", "Email", "singleLineText", [], true,
             some ⟨some ⟨"AND", [⟨"name", "equals", "x"⟩]⟩⟩⟩]⟩
        [] ≠ SubmitResult.submitted []
      ↔ ∃ f ∈ [Field.mk "name" "Name" "singleLineText" [] true none,
            Field.mk "email" "Email" "singleLineText" [] true
              (some ⟨some ⟨"AND", [⟨"name", "equals", "x"⟩]⟩⟩)],
          shouldShowQuestion f.logicRules [] = true
            ∧ f.required = true ∧ answerTruthy [] f.fieldId = false)
    ∧ (handleSubmit
        ⟨"Survey",
          [⟨"name", "Name", "singleLineText", [], true, none⟩,
           ⟨"email", "Email", "singleLineText", [], true,
             some ⟨some ⟨"AND", [⟨"name", "equals", "x"⟩]⟩⟩⟩]⟩
        [] ≠ SubmitResult.submitted [] →
      handleSubmit
        ⟨"Survey",
          [⟨"name", "Name", "singleLineText", [], true, none⟩,
           ⟨"email", "Email", "singleLineText", [], true,
             some ⟨some ⟨"AND", [⟨"name", "equals", "x"⟩]⟩⟩⟩]⟩
        [] = SubmitResult.blocked
        ("Please fill in the following required fields: "
          ++ String.intercalate ", "
            (([Field.mk "name" "Name" "singleLineText" [] true none,
               Field.mk "email" "Email" "singleLineText" [] true
                 (some ⟨some ⟨"AND", [⟨"name", "equals", "x"⟩]⟩⟩)].filter (fun f =>
                shouldShowQuestion f.logicRules []
                  && f.required && !answerTruthy [] f.fieldId)).map
              (fun f => f.label)))) :=
  submit_blocked_iff_missing_visible_required
    ⟨"Survey",
      [⟨"name", "Name", "singleLineText", [], true, none⟩,
       ⟨"email", "Email", "singleLineText", [], true,
         some ⟨some ⟨"AND", [⟨"name", "equals", "x"⟩]⟩⟩⟩]⟩
    []

end BuilderForm
